/-
Verification of the Projeto-Cloud web application core:
the authentication / token lifecycle (src/app/web_app/jwt_manager.py,
src/app/web_app/app_routes.py, src/app/web_app/db_models.py) and the
Grepolis data aggregation pipeline (src/app/web_app/grepolis_data.py).

The embedding is shallow: each Python function becomes a Lean function
over explicit state.  External libraries (python-jose, passlib, pandas)
are modelled at the granularity the routes use them: the JWT codec as a
claim list plus an abstract signing function, the password hasher and
verifier as function parameters, and the pandas DataFrame operations
(merge / drop / sort_values) as executable list functions.
-/
import Mathlib

/-! ## Credential store and request models (db_models.py, app_models.py) -/

/-- A row of the `users` table (db_models.py `User`): name, email and the
stored password string (`senha` holds the hash produced at registration). -/
structure User where
  nome : String
  email : String
  senha : String
deriving Repr, DecidableEq

/-- Body of `POST /registrar` (app_models.py `UserCreate`). -/
structure UserCreate where
  nome : String
  email : String
  senha : String
deriving Repr, DecidableEq

/-- Body of `POST /login` (app_models.py `UserLogin`). -/
structure UserLogin where
  email : String
  senha : String
deriving Repr, DecidableEq

/-- A FastAPI `HTTPException`: status code plus detail message. -/
structure HttpError where
  status : Nat
  detail : String
deriving Repr, DecidableEq

/-! ## Token service (jwt_manager.py) -/

/-- A JWT claim value: the payload dict built by `encode` maps `sub` to a
string and `exp` to an integer Unix timestamp. -/
inductive ClaimVal where
  | str (s : String)
  | nat (n : Nat)
deriving Repr, DecidableEq

/-- A JWT claim set, as the ordered key/value pairs of the payload dict. -/
abbrev Claims := List (String × ClaimVal)

/-- The payload dict built by `encode`:
`{"sub": email, "exp": datetime.now(timezone.utc) + timedelta(hours=1)}`.
Time is a Unix timestamp in seconds, so one hour is 3600. -/
def claimsOf (email : String) (now : Nat) : Claims :=
  [("sub", ClaimVal.str email), ("exp", ClaimVal.nat (now + 3600))]

/-- A signed token as produced by `jose.jwt.encode`: the claim set together
with its HMAC signature.  The signature function is abstract (parameter
`sign`); `encode` stores `sign secret claims`. -/
structure SignedToken where
  claims : Claims
  sig : Nat
deriving Repr, DecidableEq

/-- jwt_manager.py `encode`: builds the claim set for the email and signs it
with the process-wide secret. -/
def encode (sign : String → Claims → Nat) (secret : String)
    (email : String) (now : Nat) : SignedToken :=
  ⟨claimsOf email now, sign secret (claimsOf email now)⟩

/-- What a client presents to `validate_token`: either a structurally valid
token (claim set plus signature) or a malformed string that fails parsing. -/
inductive Wire where
  | token (claims : Claims) (sig : Nat)
  | malformed (raw : String)
deriving Repr, DecidableEq

/-- The two error classes of python-jose that jwt_manager.py catches:
`ExpiredSignatureError` (a subclass of `JWTError`, caught first) and the
general `JWTError` for signature or parse failures. -/
inductive JoseError where
  | expiredSignature
  | jwtError
deriving Repr, DecidableEq

/-- `jose.jwt.decode(token, secret, algorithms)`: fails with `JWTError` when
the token is malformed or the signature does not verify; otherwise checks the
`exp` claim and fails with `ExpiredSignatureError` when it is in the past;
a non-integer `exp` is a claims error (also a `JWTError`). -/
def joseDecode (sign : String → Claims → Nat) (secret : String)
    (w : Wire) (now : Nat) : Except JoseError Claims :=
  match w with
  | Wire.malformed _ => Except.error JoseError.jwtError
  | Wire.token claims sig =>
    if sig == sign secret claims then
      match claims.lookup "exp" with
      | some (ClaimVal.nat e) =>
        if e < now then Except.error JoseError.expiredSignature
        else Except.ok claims
      | some (ClaimVal.str _) => Except.error JoseError.jwtError
      | none => Except.ok claims
    else Except.error JoseError.jwtError

/-- jwt_manager.py `validate_token`: decodes with `jose.jwt.decode` and maps
`ExpiredSignatureError` to HTTP 403 "Token expirado." and any other
`JWTError` to HTTP 403 "Token inválido.". -/
def validate_token (sign : String → Claims → Nat) (secret : String)
    (w : Wire) (now : Nat) : Except HttpError Claims :=
  match joseDecode sign secret w now with
  | Except.ok c => Except.ok c
  | Except.error JoseError.expiredSignature =>
    Except.error ⟨403, "Token expirado."⟩
  | Except.error JoseError.jwtError =>
    Except.error ⟨403, "Token inválido."⟩

/-! ## Routes (app_routes.py) -/

/-- Result of a call to `registrar`: the state of the `users` table after the
call, and either the token returned or the `HTTPException` raised. -/
structure RegResult where
  store : List User
  result : Except HttpError SignedToken
deriving Repr

/-- app_routes.py `registrar`: rejects a duplicate email with
400 "Email já registrado", then a duplicate name with 400 "Nome indisponível";
otherwise adds the user with the hashed password, commits, and returns a
token for the email.  Both rejections are raised before `db.add`, so on
failure the store is returned unchanged. -/
def registrar (hashFn : String → String) (sign : String → Claims → Nat)
    (secret : String) (store : List User) (u : UserCreate) (now : Nat) :
    RegResult :=
  if store.any (fun r => r.email == u.email) then
    ⟨store, Except.error ⟨400, "Email já registrado"⟩⟩
  else if store.any (fun r => r.nome == u.nome) then
    ⟨store, Except.error ⟨400, "Nome indisponível"⟩⟩
  else
    ⟨store ++ [⟨u.nome, u.email, hashFn u.senha⟩],
     Except.ok (encode sign secret u.email now)⟩

/-- app_routes.py `login`: looks the user up by email
(`scalar_one_or_none`, at most one row since emails are unique); if no user
is found or the password does not verify against the stored hash, raises
401 "Credenciais inválidas"; otherwise returns a token for the email. -/
def login (verify : String → String → Bool) (sign : String → Claims → Nat)
    (secret : String) (store : List User) (u : UserLogin) (now : Nat) :
    Except HttpError SignedToken :=
  match store.find? (fun r => r.email == u.email) with
  | none => Except.error ⟨401, "Credenciais inválidas"⟩
  | some dbUser =>
    if verify u.senha dbUser.senha then
      Except.ok (encode sign secret u.email now)
    else Except.error ⟨401, "Credenciais inválidas"⟩

/-- One step of the credential store: the store produced by a `registrar`
call (the only operation that writes to the `users` table). -/
def regStep (hashFn : String → String) (store : List User) (u : UserCreate) :
    List User :=
  (registrar hashFn (fun _ _ => 0) "" store u 0).store

/-- The store reached from the empty table by a sequence of registration
requests, failed ones included.  `login` and the read-only routes never
write, so these are exactly the reachable stores. -/
def execTrace (hashFn : String → String) (reqs : List UserCreate) :
    List User :=
  reqs.foldl (regStep hashFn) []

/-! ## Data aggregator (grepolis_data.py)

The feeds arrive over HTTP as gzip CSV; `pd.read_csv` with the fixed column
schema and dtype map is the boundary of the embedding, so each feed enters as
a list of typed rows.  DataFrames are modelled as a column-name list plus
rows of (column, cell) pairs. -/

/-- A DataFrame cell: an integer, a string, or NaN (the fill value a left
join puts in unmatched right-side columns). -/
inductive Cell where
  | int (i : Int)
  | str (s : String)
  | nan
deriving Repr, DecidableEq

/-- A DataFrame row: cells keyed by column name, in column order. -/
abbrev Row := List (String × Cell)

/-- A pandas DataFrame: ordered column names and rows. -/
structure DF where
  cols : List String
  rows : List Row
deriving Repr, DecidableEq

/-- Hex digit value, for percent-decoding. -/
def hexVal (c : Char) : Option Nat :=
  if '0' ≤ c ∧ c ≤ '9' then some (c.toNat - '0'.toNat)
  else if 'a' ≤ c ∧ c ≤ 'f' then some (c.toNat - 'a'.toNat + 10)
  else if 'A' ≤ c ∧ c ≤ 'F' then some (c.toNat - 'A'.toNat + 10)
  else none

/-- Model of Python's `urllib.parse.unquote_plus` on the character list:
`+` becomes a space, `%hh` with two hex digits becomes the character with
that byte value, an invalid escape is kept literally. -/
def unquotePlusAux : List Char → List Char
  | [] => []
  | '+' :: rest => ' ' :: unquotePlusAux rest
  | '%' :: h1 :: h2 :: rest =>
    match hexVal h1, hexVal h2 with
    | some a, some b => Char.ofNat (16 * a + b) :: unquotePlusAux rest
    | _, _ => '%' :: unquotePlusAux (h1 :: h2 :: rest)
  | c :: rest => c :: unquotePlusAux rest

/-- `urllib.parse.unquote_plus` as used on the `name` column. -/
def unquote_plus (s : String) : String :=
  ⟨unquotePlusAux s.data⟩

/-- A parsed row of the base players feed, after `read_csv` with dtypes
`{id: int, name: str, alliance_id: float, points: int, rank: int,
towns: int}`; `alliance_id` is `none` when the CSV field is empty (NaN). -/
structure PlayerRaw where
  id : Int
  name : String
  alliance_id : Option Int
  points : Int
  rank : Int
  towns : Int
deriving Repr, DecidableEq

/-- A parsed row of a kills feed (`__COMBAT_COLUMNS` with `__COMBAT_DYPES`:
rank, player_id, points, all int). -/
structure CombatRow where
  rank : Int
  player_id : Int
  points : Int
deriving Repr, DecidableEq

/-- The row `__player_data` produces for one raw player: the name is
URL-decoded with `unquote_plus` and a NaN `alliance_id` becomes -1
(`fillna(-1).astype(int)`). -/
def playerRow (p : PlayerRaw) : Row :=
  [("id", Cell.int p.id),
   ("name", Cell.str (unquote_plus p.name)),
   ("alliance_id", Cell.int (match p.alliance_id with
     | none => -1
     | some a => a)),
   ("points", Cell.int p.points),
   ("rank", Cell.int p.rank),
   ("towns", Cell.int p.towns)]

/-- grepolis_data.py `__player_data`: the base players DataFrame after name
decoding and alliance-id filling. -/
def player_data (base : List PlayerRaw) : DF :=
  ⟨["id", "name", "alliance_id", "points", "rank", "towns"],
   base.map playerRow⟩

/-- The row of a kills feed after the `rename` of `rank` and `points` to
their prefixed names (`combat_`/`attack_`/`defense_`). -/
def combatRow (pre : String) (c : CombatRow) : Row :=
  [(pre ++ "_rank", Cell.int c.rank),
   ("player_id", Cell.int c.player_id),
   (pre ++ "_points", Cell.int c.points)]

/-- grepolis_data.py `__player_combat_data` / `__player_attack_data` /
`__player_defense_data`: the kills DataFrame with columns renamed to
`<pre>_rank`, `player_id`, `<pre>_points`. -/
def combat_data (pre : String) (feed : List CombatRow) : DF :=
  ⟨[pre ++ "_rank", "player_id", pre ++ "_points"], feed.map (combatRow pre)⟩

/-- Whether two join-key cells match in a pandas merge: equal non-null
values; NaN matches nothing. -/
def cellMatch : Option Cell → Option Cell → Bool
  | some (Cell.int a), some (Cell.int b) => a == b
  | some (Cell.str a), some (Cell.str b) => a == b
  | _, _ => false

/-- Suffix the column names of one side that collide with the other side's
columns, as pandas does with `suffixes`. -/
def sufCols (cols other : List String) (suf : String) : List String :=
  cols.map (fun c => if other.contains c then c ++ suf else c)

/-- Apply the same collision suffixing to the keys of a row. -/
def sufRow (other : List String) (suf : String) (r : Row) : Row :=
  r.map (fun kv => (if other.contains kv.fst then kv.fst ++ suf else kv.fst,
                    kv.snd))

/-- A row of all-NaN cells for the given columns: what a left join fills in
for a left row with no right match. -/
def nanRow (cols : List String) : Row :=
  cols.map (fun c => (c, Cell.nan))

/-- The merged rows produced for one left row: one output row per matching
right row, or a single NaN-padded row when nothing matches (`how="left"`).
Keys are compared on the original (pre-suffix) columns; the emitted rows
carry the suffixed column names of both sides. -/
def mergeRowsFor (right : DF) (leftOn rightOn : String)
    (leftCols : List String) (suf1 suf2 : String) (l : Row) : List Row :=
  match right.rows.filter
      (fun r => cellMatch (l.lookup leftOn) (r.lookup rightOn)) with
  | [] => [sufRow right.cols suf1 l ++ nanRow (sufCols right.cols leftCols suf2)]
  | ms => ms.map (fun r => sufRow right.cols suf1 l ++ sufRow leftCols suf2 r)

/-- pandas `left.merge(right, left_on, right_on, how="left",
suffixes=(suf1, suf2))`: columns are the left columns then the right
columns, with names common to both sides suffixed; every left row is kept,
padded with NaN when no right row has a matching key. -/
def merge (left right : DF) (leftOn rightOn : String)
    (suf1 suf2 : String) : DF :=
  ⟨sufCols left.cols right.cols suf1 ++ sufCols right.cols left.cols suf2,
   (left.rows.map
     (mergeRowsFor right leftOn rightOn left.cols suf1 suf2)).flatten⟩

/-- pandas `drop(columns=names)`: removes the named columns. -/
def dropCols (names : List String) (df : DF) : DF :=
  ⟨df.cols.filter (fun c => !names.contains c),
   df.rows.map (fun r => r.filter (fun kv => !names.contains kv.fst))⟩

/-- The sort key of `sort_values(by="rank")`: the integer in the `rank`
column (always an int in the base feed's dtype). -/
def rankKey (r : Row) : Int :=
  match r.lookup "rank" with
  | some (Cell.int i) => i
  | _ => 0

/-- Row comparison by ascending rank. -/
def rowLe (a b : Row) : Prop := rankKey a ≤ rankKey b

instance : DecidableRel rowLe := fun a b =>
  inferInstanceAs (Decidable (rankKey a ≤ rankKey b))

/-- pandas `sort_values(by="rank")`: the rows sorted ascending by rank. -/
def sortByRank (df : DF) : DF :=
  ⟨df.cols, List.insertionSort rowLe df.rows⟩

/-- First merge of `get_players_data`: base feed left-joined with the combat
feed on `id = player_id`, pandas default suffixes. -/
def merged1 (base : List PlayerRaw) (combat : List CombatRow) : DF :=
  merge (player_data base) (combat_data "combat" combat)
    "id" "player_id" "_x" "_y"

/-- Second merge: the result left-joined with the attack feed,
`suffixes=("", "_atk")`. -/
def merged2 (base : List PlayerRaw) (combat attack : List CombatRow) : DF :=
  merge (merged1 base combat) (combat_data "attack" attack)
    "id" "player_id" "" "_atk"

/-- Third merge: the result left-joined with the defense feed,
`suffixes=("", "_def")`. -/
def merged3 (base : List PlayerRaw) (combat attack defense :
    List CombatRow) : DF :=
  merge (merged2 base combat attack) (combat_data "defense" defense)
    "id" "player_id" "" "_def"

/-- grepolis_data.py `get_players_data`: left-join the combat, attack and
defense feeds onto the base feed on `id = player_id` (suffixes default for
the first merge, `("", "_atk")` and `("", "_def")` for the next two), drop
the three right-side join-key columns, and sort by rank. -/
def get_players_data (base : List PlayerRaw) (combat attack defense :
    List CombatRow) : DF :=
  sortByRank (dropCols ["player_id", "player_id_atk", "player_id_def"]
    (merged3 base combat attack defense))

/-! ## Theorems: token service and routes -/

/-- C9: `encode` builds exactly the claim set `{sub: subject, exp: now + 1h}`
(no other claims, one hour being 3600 seconds) and is deterministic in the
subject and the current time: two tokens issued for the same subject at the
same second are identical. -/
theorem C9_encode_deterministic (sign : String → Claims → Nat)
    (secret email : String) (now : Nat) :
    (encode sign secret email now).claims =
      [("sub", ClaimVal.str email), ("exp", ClaimVal.nat (now + 3600))] ∧
    ∀ t1 t2 : SignedToken, t1 = encode sign secret email now →
      t2 = encode sign secret email now → t1 = t2 := by
  refine ⟨rfl, ?_⟩
  intro t1 t2 h1 h2
  rw [h1, h2]

/-- Witness for C9 at a concrete subject, secret and time. -/
theorem C9_encode_deterministic_witness :
    (encode (fun _ _ => 0) "s" "a@b.com" 5).claims =
      [("sub", ClaimVal.str "a@b.com"), ("exp", ClaimVal.nat (5 + 3600))] ∧
    encode (fun _ _ => 0) "s" "a@b.com" 5 = encode (fun _ _ => 0) "s" "a@b.com" 5 :=
  ⟨(C9_encode_deterministic (fun _ _ => 0) "s" "a@b.com" 5).1,
   (C9_encode_deterministic (fun _ _ => 0) "s" "a@b.com" 5).2 _ _ rfl rfl⟩

/-- C3: a registration whose email is already taken fails with the
duplicate-email error no matter what the name is, and the duplicate-name
error can only arise when the email check passed (email not in the store):
the email check precedes the name check. -/
theorem C3_duplicate_email_first (hashFn : String → String)
    (sign : String → Claims → Nat) (secret : String)
    (store : List User) (u : UserCreate) (now : Nat) :
    (store.any (fun r => r.email == u.email) = true →
      registrar hashFn sign secret store u now =
        ⟨store, Except.error ⟨400, "Email já registrado"⟩⟩) ∧
    ((registrar hashFn sign secret store u now).result =
        Except.error ⟨400, "Nome indisponível"⟩ →
      store.any (fun r => r.email == u.email) = false ∧
      store.any (fun r => r.nome == u.nome) = true) := by
  constructor
  · intro h
    simp [registrar, h]
  · intro h
    by_cases he : store.any (fun r => r.email == u.email)
    · simp [registrar, he] at h
    · by_cases hn : store.any (fun r => r.nome == u.nome)
      · exact ⟨by simpa using he, hn⟩
      · simp [registrar, he, hn] at h

/-- Witness for C3: a store already holding the email rejects the request
with the duplicate-email error even though the name is also taken. -/
theorem C3_duplicate_email_first_witness :
    ([⟨"n", "e@x", "h"⟩] : List User).any
        (fun r => r.email == (⟨"n", "e@x", "p"⟩ : UserCreate).email) = true ∧
    registrar (fun s => s) (fun _ _ => 0) "s" [⟨"n", "e@x", "h"⟩]
        ⟨"n", "e@x", "p"⟩ 0 =
      ⟨[⟨"n", "e@x", "h"⟩], Except.error ⟨400, "Email já registrado"⟩⟩ :=
  ⟨by decide,
   (C3_duplicate_email_first (fun s => s) (fun _ _ => 0) "s"
     [⟨"n", "e@x", "h"⟩] ⟨"n", "e@x", "p"⟩ 0).1 (by decide)⟩

/-- C10: a registration that fails (duplicate email or duplicate name)
leaves the credential store unchanged: both errors are raised before
`db.add` / `db.commit`. -/
theorem C10_failed_register_no_write (hashFn : String → String)
    (sign : String → Claims → Nat) (secret : String)
    (store : List User) (u : UserCreate) (now : Nat) (e : HttpError)
    (h : (registrar hashFn sign secret store u now).result = Except.error e) :
    (registrar hashFn sign secret store u now).store = store := by
  by_cases he : store.any (fun r => r.email == u.email)
  · simp [registrar, he]
  · by_cases hn : store.any (fun r => r.nome == u.nome)
    · simp [registrar, he, hn]
    · simp [registrar, he, hn] at h

/-- Witness for C10: a duplicate-name registration fails and the store
afterwards is exactly the store before. -/
theorem C10_failed_register_no_write_witness :
    (registrar (fun s => s) (fun _ _ => 0) "s" [⟨"n", "e@x", "h"⟩]
        ⟨"n", "other@x", "p"⟩ 0).result =
      Except.error ⟨400, "Nome indisponível"⟩ ∧
    (registrar (fun s => s) (fun _ _ => 0) "s" [⟨"n", "e@x", "h"⟩]
        ⟨"n", "other@x", "p"⟩ 0).store = [⟨"n", "e@x", "h"⟩] :=
  ⟨rfl,
   C10_failed_register_no_write (fun s => s) (fun _ _ => 0) "s"
     [⟨"n", "e@x", "h"⟩] ⟨"n", "other@x", "p"⟩ 0 ⟨400, "Nome indisponível"⟩ rfl⟩

/-- C5: when a user with the request's email is found and the password
verifies against the stored hash, `login` returns a token whose `sub` claim
is the email; when no user is found, or one is found but the password does
not verify, `login` fails with the very same 401 "Credenciais inválidas"
error in both cases. -/
theorem C5_login_outcomes (verify : String → String → Bool)
    (sign : String → Claims → Nat) (secret : String)
    (store : List User) (u : UserLogin) (now : Nat) :
    (∀ r, store.find? (fun x => x.email == u.email) = some r →
      verify u.senha r.senha = true →
      login verify sign secret store u now =
        Except.ok (encode sign secret u.email now) ∧
      (encode sign secret u.email now).claims.lookup "sub" =
        some (ClaimVal.str u.email)) ∧
    (store.find? (fun x => x.email == u.email) = none →
      login verify sign secret store u now =
        Except.error ⟨401, "Credenciais inválidas"⟩) ∧
    (∀ r, store.find? (fun x => x.email == u.email) = some r →
      verify u.senha r.senha = false →
      login verify sign secret store u now =
        Except.error ⟨401, "Credenciais inválidas"⟩) := by
  refine ⟨?_, ?_, ?_⟩
  · intro r hr hv
    rw [login, hr]
    simp [hv]
    rfl
  · intro hn
    rw [login, hn]
  · intro r hr hv
    rw [login, hr]
    simp [hv]

/-- Witness for C5: with a one-user store, the right password logs in with
the email as subject, a wrong password and an unknown email both produce
the identical 401 error. -/
theorem C5_login_outcomes_witness :
    (login (fun p h => p ++ "#" == h) (fun _ _ => 0) "s"
        [⟨"n", "e@x", "pw#"⟩] ⟨"e@x", "pw"⟩ 0 =
      Except.ok (encode (fun _ _ => 0) "s" "e@x" 0) ∧
     (encode (fun _ _ => 0) "s" "e@x" 0).claims.lookup "sub" =
       some (ClaimVal.str "e@x")) ∧
    login (fun p h => p ++ "#" == h) (fun _ _ => 0) "s"
        [⟨"n", "e@x", "pw#"⟩] ⟨"missing@x", "pw"⟩ 0 =
      Except.error ⟨401, "Credenciais inválidas"⟩ ∧
    login (fun p h => p ++ "#" == h) (fun _ _ => 0) "s"
        [⟨"n", "e@x", "pw#"⟩] ⟨"e@x", "wrong"⟩ 0 =
      Except.error ⟨401, "Credenciais inválidas"⟩ :=
  ⟨(C5_login_outcomes (fun p h => p ++ "#" == h) (fun _ _ => 0) "s"
      [⟨"n", "e@x", "pw#"⟩] ⟨"e@x", "pw"⟩ 0).1 ⟨"n", "e@x", "pw#"⟩ rfl rfl,
   (C5_login_outcomes (fun p h => p ++ "#" == h) (fun _ _ => 0) "s"
      [⟨"n", "e@x", "pw#"⟩] ⟨"missing@x", "pw"⟩ 0).2.1 rfl,
   (C5_login_outcomes (fun p h => p ++ "#" == h) (fun _ _ => 0) "s"
      [⟨"n", "e@x", "pw#"⟩] ⟨"e@x", "wrong"⟩ 0).2.2 ⟨"n", "e@x", "pw#"⟩ rfl rfl⟩

/-- C4: `validate_token` fails with 403 "Token expirado." exactly when the
wire token is well-formed, its signature verifies, and the current time is
past its `exp` claim; a bad signature or a malformed token fails with
403 "Token inválido."; every failure carries status 403; and a success
returns exactly the claims decoded by the JWT library. -/
theorem C4_validate_token_outcomes (sign : String → Claims → Nat)
    (secret : String) (w : Wire) (now : Nat) :
    (validate_token sign secret w now = Except.error ⟨403, "Token expirado."⟩ ↔
      ∃ claims sig, w = Wire.token claims sig ∧ sig = sign secret claims ∧
        ∃ e, claims.lookup "exp" = some (ClaimVal.nat e) ∧ e < now) ∧
    (∀ claims sig, w = Wire.token claims sig → sig ≠ sign secret claims →
      validate_token sign secret w now = Except.error ⟨403, "Token inválido."⟩) ∧
    (∀ s, w = Wire.malformed s →
      validate_token sign secret w now = Except.error ⟨403, "Token inválido."⟩) ∧
    (∀ err, validate_token sign secret w now = Except.error err →
      err.status = 403) ∧
    (∀ c, validate_token sign secret w now = Except.ok c ↔
      joseDecode sign secret w now = Except.ok c) := by
  have hval : ∀ c, validate_token sign secret w now = Except.ok c ↔
      joseDecode sign secret w now = Except.ok c := by
    intro c
    unfold validate_token
    cases joseDecode sign secret w now with
    | ok d => simp
    | error je => cases je <;> simp
  cases w with
  | malformed s =>
    refine ⟨?_, ?_, ?_, ?_, hval⟩
    · simp [validate_token, joseDecode]
    · intro claims sig h
      exact absurd h (by simp)
    · intro t h
      simp [validate_token, joseDecode]
    · intro err h
      simp [validate_token, joseDecode] at h
      rw [← h]
  | token claims sig =>
    by_cases hs : sig == sign secret claims
    · have hsig : sig = sign secret claims := by simpa using hs
      refine ⟨?_, ?_, ?_, ?_, hval⟩
      · constructor
        · intro h
          refine ⟨claims, sig, rfl, hsig, ?_⟩
          rcases hexp : claims.lookup "exp" with _ | v
          · simp [validate_token, joseDecode, hs, hexp] at h
          · cases v with
            | str t => simp [validate_token, joseDecode, hs, hexp] at h
            | nat e =>
              refine ⟨e, rfl, ?_⟩
              by_cases hlt : e < now
              · exact hlt
              · simp [validate_token, joseDecode, hs, hexp, hlt] at h
        · rintro ⟨c2, s2, heq, hs2, e, hexp, hlt⟩
          obtain ⟨rfl, rfl⟩ : c2 = claims ∧ s2 = sig := by
            injection heq with h1 h2
            exact ⟨h1.symm, h2.symm⟩
          simp [validate_token, joseDecode, hs, hexp, hlt]
      · intro c2 s2 heq hne
        obtain ⟨rfl, rfl⟩ : c2 = claims ∧ s2 = sig := by
          injection heq with h1 h2
          exact ⟨h1.symm, h2.symm⟩
        exact absurd hsig hne
      · intro t h
        exact absurd h (by simp)
      · intro err h
        rcases hexp : claims.lookup "exp" with _ | v
        · simp [validate_token, joseDecode, hs, hexp] at h
        · cases v with
          | str t =>
            simp [validate_token, joseDecode, hs, hexp] at h
            rw [← h]
          | nat e =>
            by_cases hlt : e < now
            · simp [validate_token, joseDecode, hs, hexp, hlt] at h
              rw [← h]
            · simp [validate_token, joseDecode, hs, hexp, hlt] at h
    · have hsig : sig ≠ sign secret claims := by simpa using hs
      refine ⟨?_, ?_, ?_, ?_, hval⟩
      · constructor
        · intro h
          simp [validate_token, joseDecode, hs] at h
        · rintro ⟨c2, s2, heq, hs2, _⟩
          obtain ⟨rfl, rfl⟩ : c2 = claims ∧ s2 = sig := by
            injection heq with h1 h2
            exact ⟨h1.symm, h2.symm⟩
          exact absurd hs2 hsig
      · intro c2 s2 heq hne
        simp [validate_token, joseDecode, hs]
      · intro t h
        exact absurd h (by simp)
      · intro err h
        simp [validate_token, joseDecode, hs] at h
        rw [← h]

/-- Witness for C4 at concrete inputs: a malformed wire is rejected with the
403 invalid-token error. -/
theorem C4_validate_token_outcomes_witness :
    validate_token (fun _ _ => 7) "s" (Wire.malformed "garbage") 0 =
      Except.error ⟨403, "Token inválido."⟩ :=
  (C4_validate_token_outcomes (fun _ _ => 7) "s"
    (Wire.malformed "garbage") 0).2.2.1 "garbage" rfl

/-- C1: registering a user whose email and name are both fresh succeeds,
appending the hashed record and returning the token for the email, and
validating that token at any time up to its expiry succeeds and recovers
the registered email as the `sub` claim. -/
theorem C1_register_validate_roundtrip (hashFn : String → String)
    (sign : String → Claims → Nat) (secret : String)
    (store : List User) (u : UserCreate) (now t : Nat)
    (hemail : store.any (fun r => r.email == u.email) = false)
    (hnome : store.any (fun r => r.nome == u.nome) = false)
    (ht : t ≤ now + 3600) :
    registrar hashFn sign secret store u now =
      ⟨store ++ [⟨u.nome, u.email, hashFn u.senha⟩],
       Except.ok (encode sign secret u.email now)⟩ ∧
    validate_token sign secret
      (Wire.token (encode sign secret u.email now).claims
        (encode sign secret u.email now).sig) t =
      Except.ok (claimsOf u.email now) ∧
    (claimsOf u.email now).lookup "sub" = some (ClaimVal.str u.email) := by
  refine ⟨by simp [registrar, hemail, hnome], ?_, rfl⟩
  have hlk : (claimsOf u.email now).lookup "exp" =
      some (ClaimVal.nat (now + 3600)) := rfl
  unfold validate_token joseDecode encode
  simp only [hlk]
  rw [if_pos (by simp), if_neg (by omega)]

/-- Witness for C1: registering into the empty store and validating the
returned token ten seconds later recovers the email. -/
theorem C1_register_validate_roundtrip_witness :
    ([] : List User).any
        (fun r => r.email == (⟨"n", "e@x", "p"⟩ : UserCreate).email) = false ∧
    ([] : List User).any
        (fun r => r.nome == (⟨"n", "e@x", "p"⟩ : UserCreate).nome) = false ∧
    10 ≤ 0 + 3600 ∧
    (registrar (fun s => s ++ "#") (fun _ c => c.length) "s" [] ⟨"n", "e@x", "p"⟩ 0 =
      ⟨[⟨"n", "e@x", "p#"⟩],
       Except.ok (encode (fun _ c => c.length) "s" "e@x" 0)⟩ ∧
     validate_token (fun _ c => c.length) "s"
       (Wire.token (encode (fun _ c => c.length) "s" "e@x" 0).claims
         (encode (fun _ c => c.length) "s" "e@x" 0).sig) 10 =
       Except.ok (claimsOf "e@x" 0) ∧
     (claimsOf "e@x" 0).lookup "sub" = some (ClaimVal.str "e@x")) :=
  ⟨rfl, rfl, by omega,
   C1_register_validate_roundtrip (fun s => s ++ "#") (fun _ c => c.length) "s"
     [] ⟨"n", "e@x", "p"⟩ 0 10 rfl rfl (by omega)⟩

/-- Case analysis for one registration step: either the store is unchanged
(a duplicate was rejected) or both checks passed and the hashed record is
appended. -/
theorem regStep_cases (hashFn : String → String) (store : List User)
    (u : UserCreate) :
    regStep hashFn store u = store ∨
    (store.any (fun r => r.email == u.email) = false ∧
     store.any (fun r => r.nome == u.nome) = false ∧
     regStep hashFn store u = store ++ [⟨u.nome, u.email, hashFn u.senha⟩]) := by
  by_cases he : store.any (fun r => r.email == u.email)
  · left
    simp [regStep, registrar, he]
  · by_cases hn : store.any (fun r => r.nome == u.nome)
    · left
      simp [regStep, registrar, he, hn]
    · right
      exact ⟨by simpa using he, by simpa using hn,
        by simp [regStep, registrar, he, hn]⟩

/-- Invariant of folding registration steps: pairwise-distinct emails and
names are preserved, and every record is either inherited from the initial
store or the hashed image of one of the processed requests. -/
theorem foldl_regStep_inv (hashFn : String → String)
    (reqs : List UserCreate) (init : List User)
    (h1 : init.Pairwise (fun a b => a.email ≠ b.email))
    (h2 : init.Pairwise (fun a b => a.nome ≠ b.nome)) :
    (reqs.foldl (regStep hashFn) init).Pairwise (fun a b => a.email ≠ b.email) ∧
    (reqs.foldl (regStep hashFn) init).Pairwise (fun a b => a.nome ≠ b.nome) ∧
    ∀ r ∈ reqs.foldl (regStep hashFn) init,
      r ∈ init ∨ ∃ u ∈ reqs, r = ⟨u.nome, u.email, hashFn u.senha⟩ := by
  induction reqs generalizing init with
  | nil =>
    exact ⟨h1, h2, fun r hr => Or.inl hr⟩
  | cons u reqs ih =>
    have hmem : ∀ r ∈ regStep hashFn init u,
        r ∈ init ∨ r = ⟨u.nome, u.email, hashFn u.senha⟩ := by
      rcases regStep_cases hashFn init u with h | ⟨_, _, h⟩
      · rw [h]
        exact fun r hr => Or.inl hr
      · rw [h]
        intro r hr
        rcases List.mem_append.mp hr with hr | hr
        · exact Or.inl hr
        · exact Or.inr (by simpa using hr)
    have hp1 : (regStep hashFn init u).Pairwise (fun a b => a.email ≠ b.email) := by
      rcases regStep_cases hashFn init u with h | ⟨he, _, h⟩
      · rwa [h]
      · rw [h, List.pairwise_append]
        rw [List.any_eq_false] at he
        refine ⟨h1, by simp, ?_⟩
        intro a ha b hb
        simp only [List.mem_singleton] at hb
        subst hb
        simpa using he a ha
    have hp2 : (regStep hashFn init u).Pairwise (fun a b => a.nome ≠ b.nome) := by
      rcases regStep_cases hashFn init u with h | ⟨_, hn, h⟩
      · rwa [h]
      · rw [h, List.pairwise_append]
        rw [List.any_eq_false] at hn
        refine ⟨h2, by simp, ?_⟩
        intro a ha b hb
        simp only [List.mem_singleton] at hb
        subst hb
        simpa using hn a ha
    obtain ⟨g1, g2, g3⟩ := ih (regStep hashFn init u) hp1 hp2
    refine ⟨g1, g2, ?_⟩
    intro r hr
    rcases g3 r hr with hr' | ⟨v, hv, hrv⟩
    · rcases hmem r hr' with hi | hnew
      · exact Or.inl hi
      · exact Or.inr ⟨u, List.mem_cons_self _ _, hnew⟩
    · exact Or.inr ⟨v, List.mem_cons_of_mem _ hv, hrv⟩

/-- C6: in every store reachable from the empty table by the program's
operations, emails are pairwise distinct, names are pairwise distinct, and
every record's stored password is the hash of its registration plaintext and
differs from that plaintext (given that the hash function returns no input
unchanged, as a salted SHA-512 crypt does). -/
theorem C6_store_invariants (hashFn : String → String)
    (hhash : ∀ p, hashFn p ≠ p) (reqs : List UserCreate) :
    (execTrace hashFn reqs).Pairwise (fun a b => a.email ≠ b.email) ∧
    (execTrace hashFn reqs).Pairwise (fun a b => a.nome ≠ b.nome) ∧
    ∀ r ∈ execTrace hashFn reqs, ∃ u ∈ reqs,
      r.senha = hashFn u.senha ∧ r.senha ≠ u.senha := by
  obtain ⟨g1, g2, g3⟩ := foldl_regStep_inv hashFn reqs [] (by simp) (by simp)
  refine ⟨g1, g2, ?_⟩
  intro r hr
  rcases g3 r hr with h | ⟨u, hu, rfl⟩
  · simp at h
  · exact ⟨u, hu, rfl, hhash u.senha⟩

/-- Witness for C6: a trace that registers one user and then replays the
same request (rejected) yields a store with distinct emails and names whose
stored password is the hash, not the plaintext. -/
theorem C6_store_invariants_witness :
    (∀ p : String, p ++ "#" ≠ p) ∧
    ((execTrace (fun s => s ++ "#")
        [⟨"n", "e@x", "pw"⟩, ⟨"n", "e@x", "pw"⟩]).Pairwise
          (fun a b => a.email ≠ b.email) ∧
     (execTrace (fun s => s ++ "#")
        [⟨"n", "e@x", "pw"⟩, ⟨"n", "e@x", "pw"⟩]).Pairwise
          (fun a b => a.nome ≠ b.nome) ∧
     ∀ r ∈ execTrace (fun s => s ++ "#")
        [⟨"n", "e@x", "pw"⟩, ⟨"n", "e@x", "pw"⟩],
       ∃ u ∈ ([⟨"n", "e@x", "pw"⟩, ⟨"n", "e@x", "pw"⟩] : List UserCreate),
         r.senha = u.senha ++ "#" ∧ r.senha ≠ u.senha) :=
  have hne : ∀ p : String, p ++ "#" ≠ p := by
    intro p h
    have := congrArg String.length h
    rw [String.length_append] at this
    have h1 : "#".length = 0 := by omega
    exact absurd h1 (by decide)
  ⟨hne, C6_store_invariants (fun s => s ++ "#") hne
    [⟨"n", "e@x", "pw"⟩, ⟨"n", "e@x", "pw"⟩]⟩

/-! ## Theorems: data aggregator -/

/-- C8: whatever the feed contents, the aggregated DataFrame's columns are
exactly the base columns followed by the six renamed combat/attack/defense
columns; none of the right-side join keys (`player_id`, `player_id_atk`,
`player_id_def`) survive the final drop. -/
theorem C8_join_keys_dropped (base : List PlayerRaw)
    (combat attack defense : List CombatRow) :
    (get_players_data base combat attack defense).cols =
      ["id", "name", "alliance_id", "points", "rank", "towns",
       "combat_rank", "combat_points", "attack_rank", "attack_points",
       "defense_rank", "defense_points"] ∧
    "player_id" ∉ (get_players_data base combat attack defense).cols ∧
    "player_id_atk" ∉ (get_players_data base combat attack defense).cols ∧
    "player_id_def" ∉ (get_players_data base combat attack defense).cols := by
  have h : (get_players_data base combat attack defense).cols =
      ["id", "name", "alliance_id", "points", "rank", "towns",
       "combat_rank", "combat_points", "attack_rank", "attack_points",
       "defense_rank", "defense_points"] := rfl
  rw [h]
  refine ⟨rfl, ?_, ?_, ?_⟩ <;> decide

/-- C7: the rows of the aggregated DataFrame are sorted ascending by the
base feed's `rank` column, for every combination of feeds. -/
theorem C7_sorted_by_rank (base : List PlayerRaw)
    (combat attack defense : List CombatRow) :
    List.Sorted rowLe (get_players_data base combat attack defense).rows := by
  haveI : IsTotal Row rowLe := ⟨fun a b => Int.le_total (rankKey a) (rankKey b)⟩
  haveI : IsTrans Row rowLe := ⟨fun a b c hab hbc => le_trans hab hbc⟩
  show List.Sorted rowLe (List.insertionSort rowLe
    (dropCols ["player_id", "player_id_atk", "player_id_def"]
      (merged3 base combat attack defense)).rows)
  exact List.sorted_insertionSort rowLe _

/-- A left row with no key match on the right side survives a left merge as
itself (suffixed) padded with NaN cells for the right-side columns. -/
theorem mem_merge_of_no_match (left right : DF)
    (leftOn rightOn suf1 suf2 : String) (l : Row)
    (hl : l ∈ left.rows)
    (hnm : ∀ r ∈ right.rows,
      cellMatch (l.lookup leftOn) (r.lookup rightOn) = false) :
    sufRow right.cols suf1 l ++ nanRow (sufCols right.cols left.cols suf2) ∈
      (merge left right leftOn rightOn suf1 suf2).rows := by
  have hf : right.rows.filter
      (fun r => cellMatch (l.lookup leftOn) (r.lookup rightOn)) = [] := by
    rw [List.filter_eq_nil_iff]
    intro r hr
    simp [hnm r hr]
  have hrowsFor : mergeRowsFor right leftOn rightOn left.cols suf1 suf2 l =
      [sufRow right.cols suf1 l ++
        nanRow (sufCols right.cols left.cols suf2)] := by
    unfold mergeRowsFor
    rw [hf]
  show _ ∈ (left.rows.map
    (mergeRowsFor right leftOn rightOn left.cols suf1 suf2)).flatten
  rw [List.mem_flatten]
  exact ⟨_, List.mem_map_of_mem _ hl,
    by rw [hrowsFor]; exact List.mem_singleton.mpr rfl⟩

/-- The final record produced for a base-feed player that matches no row of
the combat, attack or defense feeds: the base fields (decoded name, filled
alliance id) followed by six NaN combat/attack/defense cells. -/
def unmatchedRow (p : PlayerRaw) : Row :=
  [("id", Cell.int p.id),
   ("name", Cell.str (unquote_plus p.name)),
   ("alliance_id", Cell.int (match p.alliance_id with
     | none => -1
     | some a => a)),
   ("points", Cell.int p.points),
   ("rank", Cell.int p.rank),
   ("towns", Cell.int p.towns),
   ("combat_rank", Cell.nan), ("combat_points", Cell.nan),
   ("attack_rank", Cell.nan), ("attack_points", Cell.nan),
   ("defense_rank", Cell.nan), ("defense_points", Cell.nan)]

/-- C2: a base-feed player absent from all three kills feeds is not dropped:
the aggregate contains its record, with the name URL-decoded (`+` becoming a
space), a NaN alliance id turned into -1, and all six combat/attack/defense
fields NaN. -/
theorem C2_unmatched_player_kept (base : List PlayerRaw)
    (combat attack defense : List CombatRow) (p : PlayerRaw)
    (hp : p ∈ base)
    (hc : ∀ c ∈ combat, c.player_id ≠ p.id)
    (ha : ∀ c ∈ attack, c.player_id ≠ p.id)
    (hd : ∀ c ∈ defense, c.player_id ≠ p.id) :
    unmatchedRow p ∈ (get_players_data base combat attack defense).rows ∧
    (unmatchedRow p).lookup "name" = some (Cell.str (unquote_plus p.name)) ∧
    (p.alliance_id = none →
      (unmatchedRow p).lookup "alliance_id" = some (Cell.int (-1))) ∧
    (unmatchedRow p).lookup "combat_rank" = some Cell.nan ∧
    (unmatchedRow p).lookup "combat_points" = some Cell.nan ∧
    (unmatchedRow p).lookup "attack_rank" = some Cell.nan ∧
    (unmatchedRow p).lookup "attack_points" = some Cell.nan ∧
    (unmatchedRow p).lookup "defense_rank" = some Cell.nan ∧
    (unmatchedRow p).lookup "defense_points" = some Cell.nan := by
  refine ⟨?_, rfl, ?_, rfl, rfl, rfl, rfl, rfl, rfl⟩
  · have h1 : playerRow p ++
        [("combat_rank", Cell.nan), ("player_id", Cell.nan),
         ("combat_points", Cell.nan)] ∈ (merged1 base combat).rows := by
      have hnm : ∀ r ∈ (combat_data "combat" combat).rows,
          cellMatch ((playerRow p).lookup "id") (r.lookup "player_id") =
            false := by
        intro r hr
        obtain ⟨c, hcm, rfl⟩ := List.mem_map.mp hr
        show (p.id == c.player_id) = false
        exact beq_false_of_ne (fun h => hc c hcm h.symm)
      exact mem_merge_of_no_match (player_data base)
        (combat_data "combat" combat) "id" "player_id" "_x" "_y"
        (playerRow p) (List.mem_map_of_mem _ hp) hnm
    have h2 : playerRow p ++
        [("combat_rank", Cell.nan), ("player_id", Cell.nan),
         ("combat_points", Cell.nan),
         ("attack_rank", Cell.nan), ("player_id_atk", Cell.nan),
         ("attack_points", Cell.nan)] ∈ (merged2 base combat attack).rows := by
      have hnm : ∀ r ∈ (combat_data "attack" attack).rows,
          cellMatch ((playerRow p ++
            [("combat_rank", Cell.nan), ("player_id", Cell.nan),
             ("combat_points", Cell.nan)]).lookup "id")
            (r.lookup "player_id") = false := by
        intro r hr
        obtain ⟨c, hcm, rfl⟩ := List.mem_map.mp hr
        show (p.id == c.player_id) = false
        exact beq_false_of_ne (fun h => ha c hcm h.symm)
      exact mem_merge_of_no_match (merged1 base combat)
        (combat_data "attack" attack) "id" "player_id" "" "_atk" _ h1 hnm
    have h3 : playerRow p ++
        [("combat_rank", Cell.nan), ("player_id", Cell.nan),
         ("combat_points", Cell.nan),
         ("attack_rank", Cell.nan), ("player_id_atk", Cell.nan),
         ("attack_points", Cell.nan),
         ("defense_rank", Cell.nan), ("player_id_def", Cell.nan),
         ("defense_points", Cell.nan)] ∈
          (merged3 base combat attack defense).rows := by
      have hnm : ∀ r ∈ (combat_data "defense" defense).rows,
          cellMatch ((playerRow p ++
            [("combat_rank", Cell.nan), ("player_id", Cell.nan),
             ("combat_points", Cell.nan),
             ("attack_rank", Cell.nan), ("player_id_atk", Cell.nan),
             ("attack_points", Cell.nan)]).lookup "id")
            (r.lookup "player_id") = false := by
        intro r hr
        obtain ⟨c, hcm, rfl⟩ := List.mem_map.mp hr
        show (p.id == c.player_id) = false
        exact beq_false_of_ne (fun h => hd c hcm h.symm)
      exact mem_merge_of_no_match (merged2 base combat attack)
        (combat_data "defense" defense) "id" "player_id" "" "_def" _ h2 hnm
    have h4 : unmatchedRow p ∈
        (dropCols ["player_id", "player_id_atk", "player_id_def"]
          (merged3 base combat attack defense)).rows := by
      show unmatchedRow p ∈
        (merged3 base combat attack defense).rows.map
          (fun r =>
            r.filter (fun kv =>
              !(["player_id", "player_id_atk",
                 "player_id_def"].contains kv.fst)))
      exact List.mem_map.mpr ⟨_, h3, rfl⟩
    exact (List.mem_insertionSort rowLe).mpr h4
  · intro h
    simp [unmatchedRow, h, List.lookup]

/-- Witness for C2: the spec's merge example — base row
`{id:1, name:"A+B", alliance_id:NaN, points:100, rank:1, towns:3}` with empty
kills feeds is kept, with name "A B" and alliance id -1. -/
theorem C2_unmatched_player_kept_witness :
    (⟨1, "A+B", none, 100, 1, 3⟩ : PlayerRaw) ∈
      [(⟨1, "A+B", none, 100, 1, 3⟩ : PlayerRaw)] ∧
    unmatchedRow ⟨1, "A+B", none, 100, 1, 3⟩ ∈
      (get_players_data [⟨1, "A+B", none, 100, 1, 3⟩] [] [] []).rows ∧
    (unmatchedRow ⟨1, "A+B", none, 100, 1, 3⟩).lookup "name" =
      some (Cell.str "A B") ∧
    (unmatchedRow ⟨1, "A+B", none, 100, 1, 3⟩).lookup "alliance_id" =
      some (Cell.int (-1)) ∧
    (unmatchedRow ⟨1, "A+B", none, 100, 1, 3⟩).lookup "combat_rank" =
      some Cell.nan :=
  have main := C2_unmatched_player_kept [⟨1, "A+B", none, 100, 1, 3⟩] [] [] []
    ⟨1, "A+B", none, 100, 1, 3⟩ (List.mem_singleton.mpr rfl)
    (by intro c hcm; exact absurd hcm (List.not_mem_nil c))
    (by intro c hcm; exact absurd hcm (List.not_mem_nil c))
    (by intro c hcm; exact absurd hcm (List.not_mem_nil c))
  ⟨List.mem_singleton.mpr rfl, main.1, by rw [main.2.1]; decide,
   main.2.2.1 rfl, main.2.2.2.1⟩
